import Mathlib

/-!
Verification of the dsp-stuff graph execution engine against its
natural-language specification.

Each definition below is a shallow embedding of a function or state
machine of the repository (file and line references are given in the
doc comments).  Audio samples (f32 in the source) are modelled as
exact rationals: every refutation below is robust to IEEE-754 rounding
because the gap it exhibits is orders of magnitude larger than one
f32 unit in the last place, and every confirmation is about structure
(lengths, counters, indices) rather than rounded values.
-/

namespace DspStuff

/-! ## Fan-in merging (src/dsp-stuff/src/node.rs, collect_and_average, lines 152-184)

The function is called with output zero-filled and one already-granted
view per incoming link.  A view shorter than the block size is skipped;
a contributing view is added elementwise into output and bumps
num_frames, which starts at the epsilon 0.0001 (here the exact
rational 1/10000); finally every accumulated sample is divided by
num_frames.  The returned flag r is true iff at least one link
contributed. -/

/-- One iteration of the accumulation loop of collect_and_average
(node.rs:162-174): acc is (output so far, num_frames so far, r so
far) and view is the granted view of one input link (its length is
what the view call of the source returns after the grant). -/
def caaStep (bufSize : Nat) (acc : List ℚ × ℚ × Bool) (view : List ℚ) :
    List ℚ × ℚ × Bool :=
  if view.length < bufSize then acc
  else (List.zipWith (· + ·) acc.1 (view.take bufSize), acc.2.1 + 1, true)

/-- Model of collect_and_average (node.rs:152-184).  The first
argument is the zero-filled merge buffer (its length is buf_size), the
second the granted views of the fan-in links.  Returns the merged
block and the presence flag r. -/
def collect_and_average (output : List ℚ) (views : List (List ℚ)) :
    List ℚ × Bool :=
  let acc := views.foldl (caaStep output.length) (output, 1 / 10000, false)
  (acc.1.map (· / acc.2.1), acc.2.2)

/-! ## Output device callback drift correction
(src/dsp-stuff/src/devices.rs, do_write_1 lines 394-441 and
do_write_2 lines 443-500)

Both callbacks share the same catch-up skeleton; they differ only in
how input_len is computed from the frame count (data.len() frames for
the mono callback, data.len()/2 for the stereo one) and in how frames
are written.  The model below tracks the quantities the drift-
correction logic manipulates: the AtomicU8 catch-up counter, the
number of buffered samples visible in the granted view, the needed
input length, and the number of source samples the resampler consumed
on the normal path (the source index released at devices.rs:434/493).
The counter is a u8; its decrement is saturating_sub(1), which Nat
subtraction models exactly for values below 256. -/

/-- Result of one output callback: the new counter value, the number
of samples released from the ring buffer, and whether the catch-up
skip was performed. -/
structure WriteResult where
  counter : Nat
  released : Nat
  skipped : Bool
deriving DecidableEq, Repr

/-- Model of do_write_1 (devices.rs:394-441).  If try_grant fails
(fewer than input_len samples buffered) the callback emits silence and
touches neither the counter nor the buffer.  Otherwise offs is the
excess of the granted view over input_len, the counter is
unconditionally updated with fetch_update(saturating_sub(1)), and the
skip branch (taken when the old counter was nonzero and offs is at
least allowed_latency = 2 times input_len) releases the entire view;
the normal branch releases only the samples the resampler consumed. -/
def do_write_1 (counter buffered input_len consumed : Nat) : WriteResult :=
  if buffered < input_len then ⟨counter, 0, false⟩
  else
    let offs := buffered - input_len
    if 0 < counter ∧ input_len * 2 ≤ offs then ⟨counter - 1, buffered, true⟩
    else ⟨counter - 1, consumed, false⟩

/-- Model of the TriggerResync command handler (devices.rs:150-156):
it walks the resync_counters map of every currently open output
device and applies fetch_add(5) to each AtomicU8, which wraps modulo
256.  Counters are modelled as an association list from device id to
counter value. -/
def triggerResync (counters : List (Nat × Nat)) : List (Nat × Nat) :=
  counters.map (fun c => (c.1, (c.2 + 5) % 256))

/-! ## Node task cancellation
(src/dsp-stuff/src/runtime.rs, NodeInstance::start lines 708-720, and
src/dsp-stuff/src/node.rs, Perform::perform lines 249-329)

The spawned task loops forever; each iteration creates a fresh
perform future and races it against the cancellation oneshot with
tokio select.  The perform future suspends exactly at the grant calls:
once per fan-out pipe while granting output space (node.rs:263) and
once per fan-in pipe inside collect_and_average (node.rs:163).  From
the process invocation (node.rs:296) through the copy and the releases
(node.rs:305-328) there is no await, so that tail always runs to
completion once reached.  The select drops the in-flight perform
future and exits whenever the cancellation branch completes while the
perform branch is pending, i.e. while the task sits at any of those
suspension points; it can therefore abandon a block that is already in
progress.  The state machine below has one phase per suspension point
plus an atomic finish phase for the synchronous tail. -/

/-- Control point of the node task. loopStart is the top of the loop
in NodeInstance::start where a fresh perform future is about to be
polled; grantOut i and grantIn i are the suspension points at the
grant of output pipe i (node.rs:263) and input pipe i (node.rs:163);
finish is the synchronous remainder of the block (process, copy
outputs, release); exited means the task returned. -/
inductive Phase where
  | loopStart
  | grantOut (i : Nat)
  | grantIn (i : Nat)
  | finish
  | exited
deriving DecidableEq, Repr

/-- True at phases where the task is at a poll of the select with the
perform branch pending, i.e. where the cancellation branch can win. -/
def isAwait : Phase → Bool
  | Phase.loopStart => true
  | Phase.grantOut _ => true
  | Phase.grantIn _ => true
  | Phase.finish => false
  | Phase.exited => false

/-- State of one node task: its control point, whether the stop
oneshot has fired, and how many blocks it has fully completed
(through the releases). -/
structure TaskState where
  phase : Phase
  cancelled : Bool
  completed : Nat
deriving DecidableEq, Repr

/-- Phase reached after output pipe i (of nOut) is granted: the next
output pipe, else the first input pipe, else the synchronous tail. -/
def afterGrantOut (nOut nIn : Nat) (i : Nat) : Phase :=
  if i + 1 < nOut then Phase.grantOut (i + 1)
  else if 0 < nIn then Phase.grantIn 0
  else Phase.finish

/-- Phase reached after input pipe i (of nIn) is granted. -/
def afterGrantIn (nIn : Nat) (i : Nat) : Phase :=
  if i + 1 < nIn then Phase.grantIn (i + 1) else Phase.finish

/-- First suspension point of a fresh perform future for a task with
nOut output pipes and nIn input pipes. -/
def firstPhase (nOut nIn : Nat) : Phase :=
  if 0 < nOut then Phase.grantOut 0
  else if 0 < nIn then Phase.grantIn 0
  else Phase.finish

/-- Small-step semantics of the spawned task of NodeInstance::start
(runtime.rs:708-717).  The cancelStep rule is the cancellation branch
of the select winning while the perform branch is pending at a
suspension point; the progress rules are the corresponding grant being
satisfied (or a fresh perform being polled); finishStep is the
synchronous process-copy-release tail, which contains no await and
therefore completes the block even if cancellation is already
requested. -/
inductive NodeStep (nOut nIn : Nat) : TaskState → TaskState → Prop where
  | cancelStep (p : Phase) (c : Nat) : isAwait p = true →
      NodeStep nOut nIn ⟨p, true, c⟩ ⟨Phase.exited, true, c⟩
  | beginBlock (b : Bool) (c : Nat) :
      NodeStep nOut nIn ⟨Phase.loopStart, b, c⟩ ⟨firstPhase nOut nIn, b, c⟩
  | outReady (i : Nat) (b : Bool) (c : Nat) :
      NodeStep nOut nIn ⟨Phase.grantOut i, b, c⟩ ⟨afterGrantOut nOut nIn i, b, c⟩
  | inReady (i : Nat) (b : Bool) (c : Nat) :
      NodeStep nOut nIn ⟨Phase.grantIn i, b, c⟩ ⟨afterGrantIn nIn i, b, c⟩
  | finishStep (b : Bool) (c : Nat) :
      NodeStep nOut nIn ⟨Phase.finish, b, c⟩ ⟨Phase.loopStart, b, c + 1⟩

/-! ## Identifier generators (src/dsp-stuff/src/ids.rs, lines 11-19)

Every id type (NodeId, PortId, LinkId, DeviceId) gets the same
macro-generated code over its own static AtomicUsize: generate is
fetch_add(1) returning the old value, restore(val) is
fetch_max(val + 1) followed by constructing the id from val.  All of
this is usize arithmetic on a 64-bit target: both the fetch_add of
generate and the val + 1 of restore wrap modulo 2^64 in release
builds (a debug build panics on the same inputs, violating a
greater-than claim just as surely), and restore is reachable with an
arbitrary persisted integer through the Deserialize impl
(ids.rs:30-38).  The faithful model therefore computes modulo
usizeLimit; unbounded idealizations (suffix U) are defined alongside
and are used only to phrase and exploit the no-overflow side
condition, through an agreement lemma. -/

/-- Number of usize values on the 64-bit targets the program runs on:
arithmetic in ids.rs wraps modulo this. -/
def usizeLimit : Nat := 2 ^ 64

/-- One operation on an identifier counter: a generate call or a
restore(v) call. -/
inductive IdOp where
  | gen
  | restore (v : Nat)

/-- Counter value after restore(v) (ids.rs:15-19): fetch_max raises
the counter to at least the usize value val + 1, which wraps at
usize::MAX. -/
def restoreCounter (v c : Nat) : Nat := max c ((v + 1) % usizeLimit)

/-- Values returned by the generate calls in a sequence of operations
run against counter value c; generate (ids.rs:11-13) returns the old
counter and increments it with the wrapping fetch_add. -/
def runOps : Nat → List IdOp → List Nat
  | _, [] => []
  | c, IdOp.gen :: rest => c :: runOps ((c + 1) % usizeLimit) rest
  | c, IdOp.restore v :: rest => runOps (restoreCounter v c) rest

/-- Idealized restore on an unbounded counter (no usize wrap); used
only inside the no-overflow side condition. -/
def restoreCounterU (v c : Nat) : Nat := max c (v + 1)

/-- Idealized run on an unbounded counter; agrees with runOps
whenever the run never overflows usize. -/
def runOpsU : Nat → List IdOp → List Nat
  | _, [] => []
  | c, IdOp.gen :: rest => c :: runOpsU (c + 1) rest
  | c, IdOp.restore v :: rest => runOpsU (restoreCounterU v c) rest

/-- Final value of the idealized unbounded counter after a run.  The
unbounded counter is monotone, so this is also the largest counter
value reached anywhere in the run: the run stays within usize iff
this value is below usizeLimit. -/
def finalCounterU : Nat → List IdOp → Nat
  | c, [] => c
  | c, IdOp.gen :: rest => finalCounterU (c + 1) rest
  | c, IdOp.restore v :: rest => finalCounterU (restoreCounterU v c) rest

/-! ## Graph orchestrator (src/dsp-stuff/src/runtime.rs)

Node, port and link ids are Nats; a routing-index key is a
(node, port) pair.  The two indices (UiContext.inputs and
UiContext.outputs, runtime.rs:37-38) map a key to a set of link ids;
they are modelled as association lists whose set values are
duplicate-free lists. -/

/-- A (node id, port id) routing key. -/
abbrev Key := Nat × Nat

/-- A routing index: association list from key to set of link ids. -/
abbrev Index := List (Key × List Nat)

/-- A link (runtime.rs:538-548): its id, its lhs (output-side) key and
its rhs (input-side) key. -/
structure Link where
  id : Nat
  lhs : Key
  rhs : Key
deriving DecidableEq, Repr

/-- The orchestrator state that the claims are about: the node map
keys, the link map, and the two routing indices
(runtime.rs:35-40). -/
structure Graph where
  nodes : List Nat
  links : List Link
  inputs : Index
  outputs : Index
deriving DecidableEq, Repr

/-- Insertion into a HashSet modelled as a duplicate-free list. -/
def insertSet (l : Nat) (s : List Nat) : List Nat :=
  if l ∈ s then s else s ++ [l]

/-- HashSet removal on the entry of one key of an index:
index.get_mut(key).remove(link) as done at runtime.rs:318-319 and
375-376. -/
def ixRemove (ix : Index) (k : Key) (l : Nat) : Index :=
  ix.map (fun e => if e.1 = k then (e.1, e.2.filter (fun x => x ≠ l)) else e)

/-- index.entry(key).or_default().insert(link) as done at
runtime.rs:131-132. -/
def ixInsert (ix : Index) (k : Key) (l : Nat) : Index :=
  if ix.any (fun e => decide (e.1 = k)) then
    ix.map (fun e => if e.1 = k then (e.1, insertSet l e.2) else e)
  else ix ++ [(k, [l])]

/-- Whether an index has an entry for a key (contains_key,
runtime.rs:338/343). -/
def hasKey (ix : Index) (k : Key) : Bool :=
  ix.any (fun e => decide (e.1 = k))

/-- Whether a link id occurs anywhere in an index. -/
def ixHasLink (ix : Index) (l : Nat) : Bool :=
  ix.any (fun e => e.2.contains l)

/-- Model of UiContext::add_link (runtime.rs:124-133): insert the
link into the link map, its id into the outputs index at the lhs key
and into the inputs index at the rhs key. -/
def add_link (g : Graph) (newId : Nat) (lhs rhs : Key) : Graph :=
  { g with
    links := g.links ++ [⟨newId, lhs, rhs⟩],
    outputs := ixInsert g.outputs lhs newId,
    inputs := ixInsert g.inputs rhs newId }

/-- Model of the link-creation handler (runtime.rs:332-357): with
pStart and pEnd the two keys the GUI reported, a link is added from
pEnd to pStart if pStart is a known input key and pEnd a known output
key, from pStart to pEnd in the mirrored case, and otherwise nothing
happens (the attempt is only logged).  On success the handler
restarts end.0 and then start.0.  Returns the new graph, the list of
restarted node ids in order, and whether a link was added. -/
def link_created (g : Graph) (newId : Nat) (pStart pEnd : Key) :
    Graph × List Nat × Bool :=
  if hasKey g.inputs pStart && hasKey g.outputs pEnd then
    (add_link g newId pEnd pStart, [pEnd.1, pStart.1], true)
  else if hasKey g.inputs pEnd && hasKey g.outputs pStart then
    (add_link g newId pStart pEnd, [pEnd.1, pStart.1], true)
  else (g, [], false)

/-- Observable actions of the node-deletion handler, in program
order: stopping the deleted node, removing a link id from the routing
indices, restarting a neighbour, dropping a link (removing it from
the link map, which frees its ring buffer), and removing the node
from the node map. -/
inductive Ev where
  | stopNode (n : Nat)
  | unindex (l : Nat)
  | restartNode (n : Nat)
  | dropLink (l : Nat)
  | removeNode (n : Nat)
deriving DecidableEq, Repr

/-- The nodes_to_restart set built at runtime.rs:372-383: for every
removed link, the endpoint that is not the deleted node d. -/
def restartTargets (d : Nat) (toRemove : List Link) : List Nat :=
  toRemove.foldl
    (fun acc l =>
      if l.lhs.1 ≠ d then insertSet l.lhs.1 acc
      else if l.rhs.1 ≠ d then insertSet l.rhs.1 acc
      else acc)
    []

/-- Model of the node-deletion handler (runtime.rs:359-397): stop the
node, collect the incident links, remove each from both routing
indices, restart the other endpoints, then drop the collected links
from the link map (the comment at runtime.rs:389 keeps the buffers
alive until after the restarts) and finally remove the node and its
index entries.  Returns the new graph and the emitted actions in
program order. -/
def deleteNode (g : Graph) (d : Nat) : Graph × List Ev :=
  let toRemove := g.links.filter (fun l => decide (l.lhs.1 = d) || decide (l.rhs.1 = d))
  let outputs1 := toRemove.foldl (fun ix l => ixRemove ix l.lhs l.id) g.outputs
  let inputs1 := toRemove.foldl (fun ix l => ixRemove ix l.rhs l.id) g.inputs
  let restarts := restartTargets d toRemove
  let g1 : Graph :=
    { nodes := g.nodes.filter (fun n => decide (n ≠ d)),
      links := g.links.filter
        (fun l => !(decide (l.lhs.1 = d) || decide (l.rhs.1 = d))),
      inputs := inputs1.filter (fun e => decide (e.1.1 ≠ d)),
      outputs := outputs1.filter (fun e => decide (e.1.1 ≠ d)) }
  let evs := [Ev.stopNode d] ++ toRemove.map (fun l => Ev.unindex l.id)
      ++ restarts.map Ev.restartNode
      ++ toRemove.map (fun l => Ev.dropLink l.id)
      ++ [Ev.removeNode d]
  (g1, evs)

/-! ## Ring buffer capacities
(src/dsp-stuff/src/runtime.rs:558 and src/dsp-stuff/src/devices.rs:305, 541)

All three construction sites call rivulet circular_buffer with the
literal 8192.  The device-facing sites select a stream configuration
first, but never read its buffer size: the code that would have
propagated cfg.buffer_size is commented out (devices.rs:287-294 and
522-529), so the capacity is independent of what the device
reports. -/

/-- Capacity of the ring buffer of an inter-node link
(LinkInstance::new, runtime.rs:558). -/
def linkBufferCapacity : Nat := 8192

/-- Capacity of the ring buffer created for an opened input device
(input_stream, devices.rs:305), as a function of the buffer size the
selected device configuration reports; the report is not consulted. -/
def inputDeviceBufferCapacity (_reported : Nat) : Nat := 8192

/-- Capacity of the ring buffer created for an opened output device
(output_stream, devices.rs:541), as a function of the buffer size the
selected device configuration reports; the report is not consulted. -/
def outputDeviceBufferCapacity (_reported : Nat) : Nat := 8192

/-! ## Channel adaptation (src/dsp-stuff/src/devices.rs, do_read_2
lines 244-262 and do_write_2 lines 443-500)

do_read_2 downmixes an interleaved stereo callback buffer by summing
each [a, b] chunk (array_chunks of 2, dropping a trailing odd
sample); do_write_2 writes each mono sample produced by the resampler
to both slots of a two-sample frame chunk (the fill call at
devices.rs:479/490). -/

/-- Downmix of do_read_2 (devices.rs:244-262): sum adjacent pairs of
the interleaved stereo input; a trailing unpaired sample is dropped. -/
def sumPairs : List ℚ → List ℚ
  | a :: b :: rest => (a + b) :: sumPairs rest
  | _ => []

/-- Frame duplication of do_write_2 (devices.rs:476-491): each mono
sample is written to both channels of its frame. -/
def dupPairs : List ℚ → List ℚ
  | [] => []
  | s :: rest => s :: s :: dupPairs rest

/-! ## Port registry (src/dsp-stuff/src/node.rs, PortStorage::add,
lines 71-78)

The three HashMaps of PortStorageInner are modelled as association
lists with HashMap insert semantics (overwrite the entry of an
existing key, else append).  The PortId generator is threaded through
explicitly as a counter, following ids.rs: generate returns the old
counter value. -/

/-- HashMap insert: overwrite the value at an existing key, otherwise
add a new entry. -/
def mapInsert {α β : Type} [DecidableEq α] (m : List (α × β)) (k : α) (v : β) :
    List (α × β) :=
  if m.any (fun e => decide (e.1 = k)) then
    m.map (fun e => if e.1 = k then (k, v) else e)
  else m ++ [(k, v)]

/-- HashMap lookup. -/
def mapLookup {α β : Type} [DecidableEq α] (m : List (α × β)) (k : α) :
    Option β :=
  (m.find? (fun e => decide (e.1 = k))).map (fun e => e.2)

/-- The three maps of PortStorageInner (node.rs:18-24): port name to
PortId, port name to ordinal index, PortId to ordinal index. -/
structure PortStorageInner where
  ports : List (String × Nat)
  local_indexes : List (String × Nat)
  portid_indexes : List (Nat × Nat)
deriving DecidableEq, Repr

/-- Model of PortStorage::add (node.rs:71-78) together with the
PortId generator state ctr: idx is the current number of ports, a
fresh PortId is generated, and all three maps are updated with
HashMap insert.  Returns the new registry, the new generator state
and the generated PortId. -/
def PortStorage.add (inner : PortStorageInner) (ctr : Nat) (name : String) :
    PortStorageInner × Nat × Nat :=
  let idx := inner.ports.length
  let pid := ctr
  ({ ports := mapInsert inner.ports name pid,
     local_indexes := mapInsert inner.local_indexes name idx,
     portid_indexes := mapInsert inner.portid_indexes pid idx },
   ctr + 1, pid)

/-! ## Helper lemmas -/

/-- A link id is absent from an index iff it is in no entry. -/
theorem ixHasLink_eq_false_iff (ix : Index) (l : Nat) :
    ixHasLink ix l = false ↔ ∀ e ∈ ix, l ∉ e.2 := by
  simp [ixHasLink, List.any_eq_false]

/-- Removing a link from the only key it occurs under erases it from
the index. -/
theorem ixHasLink_ixRemove_self (ix : Index) (k : Key) (l : Nat)
    (h : ∀ e ∈ ix, l ∈ e.2 → e.1 = k) :
    ixHasLink (ixRemove ix k l) l = false := by
  rw [ixHasLink_eq_false_iff]
  intro e he
  simp only [ixRemove, List.mem_map] at he
  obtain ⟨e0, he0, rfl⟩ := he
  by_cases hk : e0.1 = k
  · simp [hk, List.mem_filter]
  · simp only [if_neg hk]
    intro hl
    exact hk (h e0 he0 hl)

/-- An index removal never introduces a link id. -/
theorem ixHasLink_ixRemove_of_false (ix : Index) (k0 : Key) (l0 l : Nat)
    (h : ixHasLink ix l = false) :
    ixHasLink (ixRemove ix k0 l0) l = false := by
  rw [ixHasLink_eq_false_iff] at *
  intro e he
  simp only [ixRemove, List.mem_map] at he
  obtain ⟨e0, he0, rfl⟩ := he
  by_cases hk : e0.1 = k0
  · simp only [if_pos hk]
    intro hl
    exact h e0 he0 (List.mem_of_mem_filter hl)
  · simp only [if_neg hk]
    exact h e0 he0

/-- An index removal preserves the invariant that a link id occurs
only under one key. -/
theorem ixRemove_locality (ix : Index) (k0 : Key) (l0 l : Nat) (k : Key)
    (h : ∀ e ∈ ix, l ∈ e.2 → e.1 = k) :
    ∀ e ∈ ixRemove ix k0 l0, l ∈ e.2 → e.1 = k := by
  intro e he hl
  simp only [ixRemove, List.mem_map] at he
  obtain ⟨e0, he0, rfl⟩ := he
  by_cases hk : e0.1 = k0
  · simp only [if_pos hk] at hl ⊢
    exact h e0 he0 (List.mem_of_mem_filter hl)
  · simp only [if_neg hk] at hl ⊢
    exact h e0 he0 hl

/-- Filtering an index never introduces a link id. -/
theorem ixHasLink_filter_of_false (ix : Index) (p : Key × List Nat → Bool)
    (l : Nat) (h : ixHasLink ix l = false) :
    ixHasLink (ix.filter p) l = false := by
  rw [ixHasLink_eq_false_iff] at *
  intro e he
  exact h e (List.mem_of_mem_filter he)

/-- Every value generated by the idealized unbounded run from counter
value c is at least c. -/
theorem runOpsU_lower_bound (ops : List IdOp) :
    ∀ (c x : Nat), x ∈ runOpsU c ops → c ≤ x := by
  induction ops with
  | nil => intro c x h; simp [runOpsU] at h
  | cons op rest ih =>
      intro c x h
      cases op with
      | gen =>
          simp only [runOpsU, List.mem_cons] at h
          rcases h with rfl | h
          · exact Nat.le_refl _
          · exact Nat.le_trans (Nat.le_succ c) (ih _ _ h)
      | restore v =>
          simp only [runOpsU] at h
          exact Nat.le_trans (Nat.le_max_left _ _) (ih _ _ h)

/-- The idealized unbounded counter never decreases over a run. -/
theorem finalCounterU_lower (ops : List IdOp) :
    ∀ c : Nat, c ≤ finalCounterU c ops := by
  induction ops with
  | nil => intro c; exact Nat.le_refl c
  | cons op rest ih =>
      intro c
      cases op with
      | gen => exact Nat.le_trans (Nat.le_succ c) (ih (c + 1))
      | restore v =>
          exact Nat.le_trans (Nat.le_max_left _ _) (ih (restoreCounterU v c))

/-- Agreement: a run whose idealized unbounded counter stays below
usizeLimit never triggers a wrap, so the wrapping model and the
idealized model return the same generated values. -/
theorem runOps_eq_runOpsU (ops : List IdOp) :
    ∀ c : Nat, finalCounterU c ops < usizeLimit → runOps c ops = runOpsU c ops := by
  induction ops with
  | nil => intro c _; rfl
  | cons op rest ih =>
      intro c hb
      cases op with
      | gen =>
          have h1 : c + 1 ≤ finalCounterU (c + 1) rest := finalCounterU_lower rest _
          have h2 : finalCounterU (c + 1) rest < usizeLimit := hb
          have h3 : (c + 1) % usizeLimit = c + 1 := Nat.mod_eq_of_lt (by omega)
          simp only [runOps, runOpsU, h3]
          rw [ih (c + 1) h2]
      | restore v =>
          have h1 : restoreCounterU v c ≤ finalCounterU (restoreCounterU v c) rest :=
            finalCounterU_lower rest _
          have h2 : finalCounterU (restoreCounterU v c) rest < usizeLimit := hb
          have h4 : v + 1 < usizeLimit := by
            have : v + 1 ≤ restoreCounterU v c := Nat.le_max_right _ _
            omega
          have h5 : restoreCounter v c = restoreCounterU v c := by
            unfold restoreCounter restoreCounterU
            rw [Nat.mod_eq_of_lt h4]
          simp only [runOps, runOpsU, h5]
          exact ih (restoreCounterU v c) h2

/-- The phase after polling a fresh perform future is never exited. -/
theorem firstPhase_ne_exited (nOut nIn : Nat) :
    firstPhase nOut nIn ≠ Phase.exited := by
  unfold firstPhase; split_ifs <;> simp

/-- The phase after an output grant is never exited. -/
theorem afterGrantOut_ne_exited (nOut nIn i : Nat) :
    afterGrantOut nOut nIn i ≠ Phase.exited := by
  unfold afterGrantOut; split_ifs <;> simp

/-- The phase after an input grant is never exited. -/
theorem afterGrantIn_ne_exited (nIn i : Nat) :
    afterGrantIn nIn i ≠ Phase.exited := by
  unfold afterGrantIn; split_ifs <;> simp

/-- Looking up the inserted key of a key-overwriting map update finds
the new value. -/
theorem mapLookup_map_overwrite {α β : Type} [DecidableEq α]
    (m : List (α × β)) (k : α) (v : β)
    (h : m.any (fun e => decide (e.1 = k)) = true) :
    mapLookup (m.map (fun e => if e.1 = k then (k, v) else e)) k = some v := by
  induction m with
  | nil => cases h
  | cons e rest ih =>
      by_cases hk : e.1 = k
      · simp [mapLookup, if_pos hk, List.find?_cons_of_pos]
      · have h2 : rest.any (fun e => decide (e.1 = k)) = true := by
          simpa [hk] using h
        simpa [mapLookup, if_neg hk, List.find?_cons_of_neg, hk] using ih h2

/-- Appending an entry with a fresh key makes it findable. -/
theorem mapLookup_append_new {α β : Type} [DecidableEq α]
    (m : List (α × β)) (k : α) (v : β)
    (h : m.any (fun e => decide (e.1 = k)) = false) :
    mapLookup (m ++ [(k, v)]) k = some v := by
  induction m with
  | nil => simp [mapLookup]
  | cons e rest ih =>
      have hk : ¬(e.1 = k) := by
        intro hh
        simp [hh] at h
      have h2 : rest.any (fun e => decide (e.1 = k)) = false := by
        simpa [hk] using h
      simpa [mapLookup, List.find?_cons_of_neg, hk] using ih h2

/-- Looking up the key just inserted finds the inserted value. -/
theorem mapLookup_mapInsert_self {α β : Type} [DecidableEq α]
    (m : List (α × β)) (k : α) (v : β) :
    mapLookup (mapInsert m k v) k = some v := by
  unfold mapInsert
  split_ifs with h
  · exact mapLookup_map_overwrite m k v h
  · exact mapLookup_append_new m k v (Bool.eq_false_iff.mpr h)

/-- A key-overwriting map update leaves other keys unchanged. -/
theorem mapLookup_map_ne {α β : Type} [DecidableEq α]
    (m : List (α × β)) (k : α) (v : β) (k2 : α) (hk : k2 ≠ k) :
    mapLookup (m.map (fun e => if e.1 = k then (k, v) else e)) k2
      = mapLookup m k2 := by
  induction m with
  | nil => rfl
  | cons e rest ih =>
      by_cases he : e.1 = k
      · have h2 : ¬(e.1 = k2) := fun hh => hk (hh ▸ he)
        rw [List.map_cons, if_pos he]
        simp only [mapLookup, List.find?_cons, Ne.symm hk, h2, decide_eq_true_eq,
          decide_eq_false_iff_not, not_false_eq_true, decide_False]
        simpa [mapLookup] using ih
      · by_cases he2 : e.1 = k2
        · rw [List.map_cons, if_neg he]
          simp [mapLookup, List.find?_cons, he2]
        · rw [List.map_cons, if_neg he]
          simp only [mapLookup, List.find?_cons, he2, decide_eq_true_eq,
            decide_eq_false_iff_not, not_false_eq_true, decide_False]
          simpa [mapLookup] using ih

/-- Appending a fresh-key entry leaves other keys unchanged. -/
theorem mapLookup_append_ne {α β : Type} [DecidableEq α]
    (m : List (α × β)) (k : α) (v : β) (k2 : α) (hk : k2 ≠ k) :
    mapLookup (m ++ [(k, v)]) k2 = mapLookup m k2 := by
  induction m with
  | nil => simp [mapLookup, List.find?_cons, Ne.symm hk]
  | cons e rest ih =>
      by_cases he2 : e.1 = k2
      · rw [List.cons_append]
        simp [mapLookup, List.find?_cons, he2]
      · rw [List.cons_append]
        simp only [mapLookup, List.find?_cons, he2, decide_eq_true_eq,
          decide_eq_false_iff_not, not_false_eq_true, decide_False]
        simpa [mapLookup] using ih

/-- Map insertion leaves the value of every other key unchanged. -/
theorem mapLookup_mapInsert_ne {α β : Type} [DecidableEq α]
    (m : List (α × β)) (k : α) (v : β) (k2 : α) (hk : k2 ≠ k) :
    mapLookup (mapInsert m k v) k2 = mapLookup m k2 := by
  unfold mapInsert
  split_ifs with h
  · exact mapLookup_map_ne m k v k2 hk
  · exact mapLookup_append_ne m k v k2 hk

/-- Index lemma for the pair-summing downmix: output sample i is the
sum of input samples 2i and 2i+1. -/
theorem sumPairs_getElem (data : List ℚ) (i : Nat) :
    (sumPairs data)[i]? =
      (data[2 * i]?).bind (fun a => (data[2 * i + 1]?).map (fun b => a + b)) := by
  induction i generalizing data with
  | zero =>
      match data with
      | [] => simp [sumPairs]
      | [a] => simp [sumPairs]
      | a :: b :: rest => simp [sumPairs]
  | succ n ih =>
      match data with
      | [] => simp [sumPairs]
      | [a] => simp [sumPairs, show 2 * (n + 1) = 2 * n + 2 from by ring]
      | a :: b :: rest =>
          have h2 : 2 * (n + 1) = 2 * n + 2 := by ring
          simp only [sumPairs, h2, List.getElem?_cons_succ]
          exact ih rest

/-- Index lemma for frame duplication: the left channel of frame i is
mono sample i. -/
theorem dupPairs_getElem_left (mono : List ℚ) (i : Nat) :
    (dupPairs mono)[2 * i]? = mono[i]? := by
  induction i generalizing mono with
  | zero =>
      match mono with
      | [] => simp [dupPairs]
      | s :: rest => simp [dupPairs]
  | succ n ih =>
      match mono with
      | [] => simp [dupPairs]
      | s :: rest =>
          have h2 : 2 * (n + 1) = 2 * n + 2 := by ring
          simp only [dupPairs, h2, List.getElem?_cons_succ]
          exact ih rest

/-- Index lemma for frame duplication: the right channel of frame i is
mono sample i. -/
theorem dupPairs_getElem_right (mono : List ℚ) (i : Nat) :
    (dupPairs mono)[2 * i + 1]? = mono[i]? := by
  induction i generalizing mono with
  | zero =>
      match mono with
      | [] => simp [dupPairs]
      | s :: rest => simp [dupPairs]
  | succ n ih =>
      match mono with
      | [] => simp [dupPairs]
      | s :: rest =>
          have h2 : 2 * (n + 1) = 2 * n + 2 := by ring
          simp only [dupPairs, h2, List.getElem?_cons_succ]
          exact ih rest

/-! ## Claim theorems -/

/-- C1, counterexample: with fan-in blocks A = [1,1,1] and B = [3,3,3]
both contributing, the merged block is not exactly [2,2,2], and with
only A contributing it is not exactly [1,1,1]: the epsilon start value
of num_frames makes the divisor 2.0001 resp. 1.0001 rather than 2
resp. 1.  The gap (about 0.0001) dwarfs f32 rounding, so the exact
claim also fails in the floating-point program. -/
theorem C1_counterexample :
    (collect_and_average [0, 0, 0] [[1, 1, 1], [3, 3, 3]]).1 ≠ [2, 2, 2] ∧
    (collect_and_average [0, 0, 0] [[1, 1, 1], []]).1 ≠ [1, 1, 1] := by
  constructor <;> norm_num [collect_and_average, caaStep]

/-- C1, amended: with A = [1,1,1] and B = [3,3,3] both contributing,
the merged block is [4/2.0001, ...] (within 1/10000 of [2,2,2]) and
the port is marked present; with only A contributing (B starved, its
view shorter than the block) the merged block is [1/1.0001, ...]
(within 1/10000 of [1,1,1]) and the port is still marked present
because A contributed. -/
theorem C1_fan_in_averaging :
    collect_and_average [0, 0, 0] [[1, 1, 1], [3, 3, 3]]
      = ([40000 / 20001, 40000 / 20001, 40000 / 20001], true) ∧
    collect_and_average [0, 0, 0] [[1, 1, 1], []]
      = ([10000 / 10001, 10000 / 10001, 10000 / 10001], true) ∧
    |(40000 : ℚ) / 20001 - 2| < 1 / 10000 ∧
    |(10000 : ℚ) / 10001 - 1| < 1 / 10000 := by
  refine ⟨?_, ?_, ?_, ?_⟩
  · norm_num [collect_and_average, caaStep]
  · norm_num [collect_and_average, caaStep]
  · rw [abs_sub_lt_iff]; norm_num
  · rw [abs_sub_lt_iff]; norm_num

/-- C2, counterexample: the catch-up counter is not decremented only
when the skip is performed.  At counter 3 with exactly the needed 4
samples buffered (no excess, so no skip), the callback still
decrements the counter to 2 while skipped stays false. -/
theorem C2_counterexample :
    (do_write_1 3 4 4 4).skipped = false ∧ (do_write_1 3 4 4 4).counter = 2 := by
  decide

/-- C2, amended: when the counter is nonzero and the backlog beyond
the needed length is at least twice the needed length, one callback
performs the catch-up step, releasing the entire buffered view and
decrementing the counter by exactly one; when the counter is zero no
skip is ever performed and the counter stays zero; however the
counter is decremented (saturating at zero) by every callback that
finds enough data, whether or not the skip is performed; a callback
that finds too little data emits silence and changes nothing. -/
theorem C2_drift_correction (counter buffered input_len consumed : Nat) :
    (0 < counter → input_len ≤ buffered → input_len * 2 ≤ buffered - input_len →
      do_write_1 counter buffered input_len consumed = ⟨counter - 1, buffered, true⟩)
    ∧ (counter = 0 → (do_write_1 counter buffered input_len consumed).skipped = false
        ∧ (do_write_1 counter buffered input_len consumed).counter = 0)
    ∧ (input_len ≤ buffered →
        (do_write_1 counter buffered input_len consumed).counter = counter - 1)
    ∧ (buffered < input_len →
        do_write_1 counter buffered input_len consumed = ⟨counter, 0, false⟩) := by
  unfold do_write_1
  refine ⟨?_, ?_, ?_, ?_⟩
  · intro h1 h2 h3
    rw [if_neg (by omega), if_pos ⟨h1, h3⟩]
  · rintro rfl
    dsimp only
    split_ifs <;> simp_all
  · intro h
    rw [if_neg (by omega)]
    dsimp only
    split_ifs <;> rfl
  · intro h
    rw [if_pos h]

/-- C2, witness: a resync step at counter 1 with 12 samples buffered
and 4 needed releases all 12 and sets the counter to 0; at counter 0
the same state performs no skip. -/
theorem C2_drift_correction_witness :
    ((0 : Nat) < 1 ∧ (4 : Nat) ≤ 12 ∧ 4 * 2 ≤ 12 - 4) ∧
    do_write_1 1 12 4 4 = ⟨0, 12, true⟩ ∧
    (do_write_1 0 12 4 4).skipped = false ∧ (do_write_1 0 12 4 4).counter = 0 := by
  refine ⟨by decide, (C2_drift_correction 1 12 4 4).1 (by decide) (by decide) (by decide), ?_⟩
  exact (C2_drift_correction 0 12 4 4).2.1 rfl

/-- C3, counterexample: a cancellation can be observed in the middle
of a block, not only between loop iterations.  A task suspended at the
input-grant point with the stop already requested steps directly to
exited; the suspension point is not the loop start and the completed
block counter does not advance, so the in-progress block is abandoned
rather than finished. -/
theorem C3_counterexample :
    NodeStep 1 1 ⟨Phase.grantIn 0, true, 0⟩ ⟨Phase.exited, true, 0⟩ ∧
    Phase.grantIn 0 ≠ Phase.loopStart ∧
    (⟨Phase.exited, true, 0⟩ : TaskState).completed =
      (⟨Phase.grantIn 0, true, 0⟩ : TaskState).completed :=
  ⟨NodeStep.cancelStep (Phase.grantIn 0) 0 rfl, by decide, rfl⟩

/-- C3, amended: cancellation is observed only at the suspension
points of the task (the loop head and the buffer-grant awaits), never
during the synchronous transform-copy-release tail: every transition
into the exited state starts from a suspension point with cancellation
requested and leaves the completed-block count unchanged, and from the
synchronous tail the task always finishes the block (the count
increases by one) even when cancellation is already requested.  A task
cancelled while suspended mid-block therefore abandons that block
instead of completing it. -/
theorem C3_cancellation (nOut nIn : Nat) (s t : TaskState)
    (h : NodeStep nOut nIn s t) :
    (t.phase = Phase.exited →
      s.cancelled = true ∧ isAwait s.phase = true ∧ t.completed = s.completed)
    ∧ (s.phase = Phase.finish →
      t.phase = Phase.loopStart ∧ t.completed = s.completed + 1) := by
  cases h with
  | cancelStep p c hp =>
      refine ⟨fun _ => ⟨rfl, hp, rfl⟩, fun hf => ?_⟩
      have hf2 : p = Phase.finish := hf
      rw [hf2] at hp
      exact absurd hp (by decide)
  | beginBlock b c =>
      exact ⟨fun he => absurd he (firstPhase_ne_exited nOut nIn),
        fun hf => Phase.noConfusion hf⟩
  | outReady i b c =>
      exact ⟨fun he => absurd he (afterGrantOut_ne_exited nOut nIn i),
        fun hf => Phase.noConfusion hf⟩
  | inReady i b c =>
      exact ⟨fun he => absurd he (afterGrantIn_ne_exited nIn i),
        fun hf => Phase.noConfusion hf⟩
  | finishStep b c =>
      exact ⟨fun he => Phase.noConfusion he, fun _ => ⟨rfl, rfl⟩⟩

/-- C3, witness: instantiates the cancellation theorem at a concrete
exit transition (cancelled task at an output grant) and at a concrete
synchronous-tail transition that completes its block. -/
theorem C3_cancellation_witness :
    ((⟨Phase.grantOut 0, true, 0⟩ : TaskState).cancelled = true ∧
      isAwait (⟨Phase.grantOut 0, true, 0⟩ : TaskState).phase = true ∧
      (⟨Phase.exited, true, 0⟩ : TaskState).completed =
        (⟨Phase.grantOut 0, true, 0⟩ : TaskState).completed) ∧
    ((⟨Phase.loopStart, true, 6⟩ : TaskState).phase = Phase.loopStart ∧
      (⟨Phase.loopStart, true, 6⟩ : TaskState).completed =
        (⟨Phase.finish, true, 5⟩ : TaskState).completed + 1) :=
  ⟨(C3_cancellation 1 1 _ _ (NodeStep.cancelStep (Phase.grantOut 0) 0 rfl)).1 rfl,
   (C3_cancellation 1 1 _ _ (NodeStep.finishStep true 5)).2 rfl⟩

/-- C4, counterexample: the claim fails at v = usize::MAX, which one
restore call can receive from persisted input.  There val + 1 wraps
to 0, fetch_max(0) leaves a fresh counter at 0, and the next generate
returns 0, which is not strictly greater than v (nothing is).  A
debug build panics on the same val + 1 instead of wrapping, violating
the claim there too. -/
theorem C4_counterexample :
    0 ∈ runOps (restoreCounter (usizeLimit - 1) 0) [IdOp.gen] ∧
    ¬(usizeLimit - 1 < 0) := by
  constructor
  · show 0 ∈ runOps (max 0 ((usizeLimit - 1 + 1) % usizeLimit)) [IdOp.gen]
    norm_num [usizeLimit, runOps]
  · omega

/-- C4, amended: for every value v below usize::MAX, after restore(v)
raises the counter with fetch_max(v + 1), every identifier returned
by generate under any further sequence of generate and restore calls
that never overflows the usize counter (its idealized unbounded value
stays below 2^64) is strictly greater than v.  The same
macro-generated code backs NodeId, PortId, LinkId and DeviceId, so
the statement covers all four types. -/
theorem C4_restore_no_collision (v c : Nat) (ops : List IdOp) (x : Nat)
    (hv : v + 1 < usizeLimit)
    (hb : finalCounterU (restoreCounterU v c) ops < usizeLimit)
    (h : x ∈ runOps (restoreCounter v c) ops) : v < x := by
  have h0 : restoreCounter v c = restoreCounterU v c := by
    unfold restoreCounter restoreCounterU
    rw [Nat.mod_eq_of_lt hv]
  rw [h0, runOps_eq_runOpsU ops _ hb] at h
  have h1 : restoreCounterU v c ≤ x := runOpsU_lower_bound ops _ x h
  have h2 : v + 1 ≤ restoreCounterU v c := Nat.le_max_right _ _
  omega

/-- C4, witness: after restore(5) on a fresh counter, the next
generate returns 6, which is greater than 5; the run plainly stays
below 2^64. -/
theorem C4_restore_no_collision_witness :
    (5 + 1 < usizeLimit ∧
      finalCounterU (restoreCounterU 5 0) [IdOp.gen] < usizeLimit ∧
      6 ∈ runOps (restoreCounter 5 0) [IdOp.gen]) ∧ 5 < 6 :=
  ⟨⟨by norm_num [usizeLimit],
    by norm_num [usizeLimit, finalCounterU, restoreCounterU],
    by norm_num [usizeLimit, runOps, restoreCounter]⟩,
   C4_restore_no_collision 5 0 [IdOp.gen] 6
     (by norm_num [usizeLimit])
     (by norm_num [usizeLimit, finalCounterU, restoreCounterU])
     (by norm_num [usizeLimit, runOps, restoreCounter])⟩

/-- C5, amended: deleting node d whose incident links are exactly l1
(from d to a) and l2 (from b to d), with a and b distinct from d and
from each other, (i) emits exactly the action sequence stop d,
unindex both links, restart a, restart b, drop both links, remove d -
so every unindex precedes every buffer drop, exactly the two other
endpoints are restarted and only d is stopped; (ii) removes d from
the node map; (iii) leaves neither link id in either routing index;
(iv) removes both links from the link map; and (v) the identifier d,
which was generated, so the NodeId counter c exceeds it, is never
returned by a later generate under any sequence of generate and
restore calls that keeps the usize counter from overflowing (its
idealized unbounded value stays below 2^64).  The locality hypotheses
state the index invariant that a link id occurs only under its own
endpoint key. -/
theorem C5_delete_node (g : Graph) (d a b : Nat) (l1 l2 : Link)
    (h1 : g.links.filter (fun l => decide (l.lhs.1 = d) || decide (l.rhs.1 = d)) = [l1, l2])
    (hl1l : l1.lhs.1 = d) (hl1r : l1.rhs.1 = a)
    (hl2l : l2.lhs.1 = b) (hl2r : l2.rhs.1 = d)
    (had : a ≠ d) (hbd : b ≠ d) (hab : a ≠ b)
    (hin1 : ∀ e ∈ g.inputs, l1.id ∈ e.2 → e.1 = l1.rhs)
    (hout1 : ∀ e ∈ g.outputs, l1.id ∈ e.2 → e.1 = l1.lhs)
    (hin2 : ∀ e ∈ g.inputs, l2.id ∈ e.2 → e.1 = l2.rhs)
    (hout2 : ∀ e ∈ g.outputs, l2.id ∈ e.2 → e.1 = l2.lhs) :
    (deleteNode g d).2 = [Ev.stopNode d, Ev.unindex l1.id, Ev.unindex l2.id,
        Ev.restartNode a, Ev.restartNode b, Ev.dropLink l1.id, Ev.dropLink l2.id,
        Ev.removeNode d]
    ∧ (∀ n, Ev.restartNode n ∈ (deleteNode g d).2 → n = a ∨ n = b)
    ∧ (∀ n, Ev.stopNode n ∈ (deleteNode g d).2 → n = d)
    ∧ d ∉ (deleteNode g d).1.nodes
    ∧ ixHasLink (deleteNode g d).1.inputs l1.id = false
    ∧ ixHasLink (deleteNode g d).1.outputs l1.id = false
    ∧ ixHasLink (deleteNode g d).1.inputs l2.id = false
    ∧ ixHasLink (deleteNode g d).1.outputs l2.id = false
    ∧ l1 ∉ (deleteNode g d).1.links
    ∧ l2 ∉ (deleteNode g d).1.links
    ∧ (∀ (c : Nat) (ops : List IdOp) (x : Nat), d < c →
        finalCounterU c ops < usizeLimit → x ∈ runOps c ops → x ≠ d) := by
  have hba : b ≠ a := Ne.symm hab
  have hrt : restartTargets d [l1, l2] = [a, b] := by
    simp [restartTargets, insertSet, hl1l, hl1r, hl2l, hl2r, had, hbd, hba]
  have hg2 : (deleteNode g d).2 = [Ev.stopNode d, Ev.unindex l1.id, Ev.unindex l2.id,
      Ev.restartNode a, Ev.restartNode b, Ev.dropLink l1.id, Ev.dropLink l2.id,
      Ev.removeNode d] := by
    simp [deleteNode, h1, hrt]
  have hgin : (deleteNode g d).1.inputs
      = (ixRemove (ixRemove g.inputs l1.rhs l1.id) l2.rhs l2.id).filter
          (fun e => decide (e.1.1 ≠ d)) := by
    simp [deleteNode, h1]
  have hgout : (deleteNode g d).1.outputs
      = (ixRemove (ixRemove g.outputs l1.lhs l1.id) l2.lhs l2.id).filter
          (fun e => decide (e.1.1 ≠ d)) := by
    simp [deleteNode, h1]
  refine ⟨hg2, ?_, ?_, ?_, ?_, ?_, ?_, ?_, ?_, ?_, ?_⟩
  · intro n hn
    rw [hg2] at hn
    simp only [List.mem_cons, List.not_mem_nil, or_false, Ev.restartNode.injEq,
      reduceCtorEq, false_or, or_false] at hn
    exact hn
  · intro n hn
    rw [hg2] at hn
    simp only [List.mem_cons, List.not_mem_nil, or_false, Ev.stopNode.injEq,
      reduceCtorEq, false_or, or_false] at hn
    exact hn
  · have hnodes : (deleteNode g d).1.nodes
        = g.nodes.filter (fun n => decide (n ≠ d)) := by
      simp [deleteNode, h1]
    rw [hnodes]
    simp
  · rw [hgin]
    exact ixHasLink_filter_of_false _ _ _
      (ixHasLink_ixRemove_of_false _ _ _ _ (ixHasLink_ixRemove_self _ _ _ hin1))
  · rw [hgout]
    exact ixHasLink_filter_of_false _ _ _
      (ixHasLink_ixRemove_of_false _ _ _ _ (ixHasLink_ixRemove_self _ _ _ hout1))
  · rw [hgin]
    exact ixHasLink_filter_of_false _ _ _
      (ixHasLink_ixRemove_self _ _ _ (ixRemove_locality _ _ _ _ _ hin2))
  · rw [hgout]
    exact ixHasLink_filter_of_false _ _ _
      (ixHasLink_ixRemove_self _ _ _ (ixRemove_locality _ _ _ _ _ hout2))
  · have hlinks : (deleteNode g d).1.links
        = g.links.filter (fun l => !(decide (l.lhs.1 = d) || decide (l.rhs.1 = d))) := by
      simp [deleteNode, h1]
    rw [hlinks]
    intro hmem
    have := List.of_mem_filter hmem
    simp [hl1l] at this
  · have hlinks : (deleteNode g d).1.links
        = g.links.filter (fun l => !(decide (l.lhs.1 = d) || decide (l.rhs.1 = d))) := by
      simp [deleteNode, h1]
    rw [hlinks]
    intro hmem
    have := List.of_mem_filter hmem
    simp [hl2r] at this
  · intro c ops x hdc hb hx
    rw [runOps_eq_runOpsU ops c hb] at hx
    have := runOpsU_lower_bound ops c x hx
    omega

/-- C5, counterexample: the unconditional never-reappears clause of
the claim fails under usize wraparound, reachable through persisted
restores.  After node id 0 was generated (counter 1) and the node
deleted from a concrete graph matching the claim, a single
restore(usize::MAX - 1) drives the counter to usize::MAX and two
generates later the value 0 is returned again. -/
theorem C5_counterexample :
    0 ∉ (deleteNode
      { nodes := [0, 1, 2, 3],
        links := [⟨10, (0, 5), (1, 6)⟩, ⟨11, (2, 7), (0, 8)⟩, ⟨12, (1, 9), (3, 4)⟩],
        inputs := [((1, 6), [10]), ((0, 8), [11]), ((3, 4), [12])],
        outputs := [((0, 5), [10]), ((2, 7), [11]), ((1, 9), [12])] } 0).1.nodes
    ∧ (0 : Nat) < 1
    ∧ 0 ∈ runOps 1 [IdOp.restore (usizeLimit - 2), IdOp.gen, IdOp.gen] := by
  refine ⟨by decide, by omega, ?_⟩
  show 0 ∈ runOps (restoreCounter (usizeLimit - 2) 1) [IdOp.gen, IdOp.gen]
  show 0 ∈ runOps (max 1 ((usizeLimit - 2 + 1) % usizeLimit)) [IdOp.gen, IdOp.gen]
  norm_num [usizeLimit, runOps]

/-- C5, witness: deleting node 0 from a concrete four-node graph in
which links 10 (0 to 1) and 11 (2 to 0) are incident to it and link
12 joins the unrelated nodes 1 and 3 produces exactly the expected
action sequence and removes node 0; with the counter at 1 and one
further non-overflowing generate, the returned id 1 differs from the
deleted id 0. -/
theorem C5_delete_node_witness :
    (deleteNode
      { nodes := [0, 1, 2, 3],
        links := [⟨10, (0, 5), (1, 6)⟩, ⟨11, (2, 7), (0, 8)⟩, ⟨12, (1, 9), (3, 4)⟩],
        inputs := [((1, 6), [10]), ((0, 8), [11]), ((3, 4), [12])],
        outputs := [((0, 5), [10]), ((2, 7), [11]), ((1, 9), [12])] } 0).2
      = [Ev.stopNode 0, Ev.unindex 10, Ev.unindex 11, Ev.restartNode 1,
         Ev.restartNode 2, Ev.dropLink 10, Ev.dropLink 11, Ev.removeNode 0]
    ∧ 0 ∉ (deleteNode
      { nodes := [0, 1, 2, 3],
        links := [⟨10, (0, 5), (1, 6)⟩, ⟨11, (2, 7), (0, 8)⟩, ⟨12, (1, 9), (3, 4)⟩],
        inputs := [((1, 6), [10]), ((0, 8), [11]), ((3, 4), [12])],
        outputs := [((0, 5), [10]), ((2, 7), [11]), ((1, 9), [12])] } 0).1.nodes
    ∧ (1 : Nat) ≠ 0 := by
  have h := C5_delete_node
    { nodes := [0, 1, 2, 3],
      links := [⟨10, (0, 5), (1, 6)⟩, ⟨11, (2, 7), (0, 8)⟩, ⟨12, (1, 9), (3, 4)⟩],
      inputs := [((1, 6), [10]), ((0, 8), [11]), ((3, 4), [12])],
      outputs := [((0, 5), [10]), ((2, 7), [11]), ((1, 9), [12])] }
    0 1 2 ⟨10, (0, 5), (1, 6)⟩ ⟨11, (2, 7), (0, 8)⟩
    (by decide) (by decide) (by decide) (by decide) (by decide)
    (by decide) (by decide) (by decide)
    (by decide) (by decide) (by decide) (by decide)
  refine ⟨h.1, h.2.2.2.1, ?_⟩
  exact h.2.2.2.2.2.2.2.2.2.2 1 [IdOp.gen] 1 (by decide)
    (by norm_num [usizeLimit, finalCounterU]) (by simp [runOps])

/-- C6: provided a routing key is never simultaneously an input and
an output key (the registries are disjoint), a connection attempt
between two input keys or between two output keys returns the graph
unchanged with no node restarted and no link added, and whenever a
link is added one endpoint is an input key and the other an output
key, with exactly the two endpoint nodes restarted. -/
theorem C6_invalid_topology (g : Graph) (newId : Nat) (pStart pEnd : Key)
    (hds : ¬(hasKey g.inputs pStart = true ∧ hasKey g.outputs pStart = true))
    (hde : ¬(hasKey g.inputs pEnd = true ∧ hasKey g.outputs pEnd = true)) :
    ((hasKey g.inputs pStart = true ∧ hasKey g.inputs pEnd = true) →
      link_created g newId pStart pEnd = (g, [], false))
    ∧ ((hasKey g.outputs pStart = true ∧ hasKey g.outputs pEnd = true) →
      link_created g newId pStart pEnd = (g, [], false))
    ∧ ((link_created g newId pStart pEnd).2.2 = true →
      ((hasKey g.inputs pStart = true ∧ hasKey g.outputs pEnd = true) ∨
        (hasKey g.inputs pEnd = true ∧ hasKey g.outputs pStart = true))
      ∧ (link_created g newId pStart pEnd).2.1 = [pEnd.1, pStart.1]) := by
  unfold link_created
  split_ifs with hc1 hc2
  · rw [Bool.and_eq_true] at hc1
    exact ⟨fun h => absurd ⟨h.2, hc1.2⟩ hde, fun h => absurd ⟨hc1.1, h.1⟩ hds,
      fun _ => ⟨Or.inl ⟨hc1.1, hc1.2⟩, rfl⟩⟩
  · rw [Bool.and_eq_true] at hc2
    exact ⟨fun h => absurd ⟨h.1, hc2.2⟩ hds, fun h => absurd ⟨hc2.1, h.2⟩ hde,
      fun _ => ⟨Or.inr ⟨hc2.1, hc2.2⟩, rfl⟩⟩
  · exact ⟨fun _ => rfl, fun _ => rfl, fun h => by cases h⟩

/-- C6, witness: an attempt to connect two input keys of a concrete
graph leaves the graph unchanged, restarts nothing and adds no
link. -/
theorem C6_invalid_topology_witness :
    link_created
      { nodes := [1, 2],
        links := [],
        inputs := [((1, 6), []), ((2, 7), [])],
        outputs := [] } 99 (1, 6) (2, 7)
      = ({ nodes := [1, 2],
           links := [],
           inputs := [((1, 6), []), ((2, 7), [])],
           outputs := [] }, [], false) :=
  (C6_invalid_topology
    { nodes := [1, 2],
      links := [],
      inputs := [((1, 6), []), ((2, 7), [])],
      outputs := [] } 99 (1, 6) (2, 7)
    (by decide) (by decide)).1 ⟨by decide, by decide⟩

/-- C7, counterexample: the ring buffer created for an opened device
does not have capacity equal to the reported buffer size times 8: for
a device reporting 256 frames the capacity would have to be 2048, but
both device-facing construction sites pass the constant 8192. -/
theorem C7_counterexample :
    inputDeviceBufferCapacity 256 ≠ 256 * 8 ∧
    outputDeviceBufferCapacity 256 ≠ 256 * 8 := by
  decide

/-- C7, amended: every ring buffer capacity is fixed at construction
to the constant 8192 samples - for inter-node links and for both
device-facing buffers, whatever buffer size the device reports. -/
theorem C7_capacities (reported : Nat) :
    linkBufferCapacity = 8192 ∧ inputDeviceBufferCapacity reported = 8192 ∧
    outputDeviceBufferCapacity reported = 8192 :=
  ⟨rfl, rfl, rfl⟩

/-- C8: the stereo input callback downmixes by summation - output
sample i is input sample 2i plus input sample 2i+1, with no division
by the channel count - and the stereo output callback duplicates the
mono signal, writing sample i to both channels of frame i. -/
theorem C8_channel_adaptation (data mono : List ℚ) (i : Nat) :
    (sumPairs data)[i]? =
      (data[2 * i]?).bind (fun a => (data[2 * i + 1]?).map (fun b => a + b))
    ∧ (dupPairs mono)[2 * i]? = mono[i]?
    ∧ (dupPairs mono)[2 * i + 1]? = mono[i]? :=
  ⟨sumPairs_getElem data i, dupPairs_getElem_left mono i,
   dupPairs_getElem_right mono i⟩

/-- C9: calling add with the same name twice on one port registry
generates two distinct PortIds (the counter values ctr and ctr + 1)
and does not merge the second call into the first: both PortIds are
present in the PortId-to-ordinal map afterwards, while the name maps
to the second PortId.  So add is not idempotent. -/
theorem C9_add_not_idempotent (inner : PortStorageInner) (ctr : Nat)
    (name : String) :
    (PortStorage.add inner ctr name).2.2 = ctr
    ∧ (PortStorage.add (PortStorage.add inner ctr name).1
        (PortStorage.add inner ctr name).2.1 name).2.2 = ctr + 1
    ∧ ctr ≠ ctr + 1
    ∧ mapLookup (PortStorage.add (PortStorage.add inner ctr name).1
        (PortStorage.add inner ctr name).2.1 name).1.ports name = some (ctr + 1)
    ∧ mapLookup (PortStorage.add (PortStorage.add inner ctr name).1
        (PortStorage.add inner ctr name).2.1 name).1.portid_indexes ctr
        = some inner.ports.length
    ∧ mapLookup (PortStorage.add (PortStorage.add inner ctr name).1
        (PortStorage.add inner ctr name).2.1 name).1.portid_indexes (ctr + 1)
        = some (mapInsert inner.ports name ctr).length := by
  refine ⟨rfl, rfl, by omega, ?_, ?_, ?_⟩
  · exact mapLookup_mapInsert_self _ name (ctr + 1)
  · show mapLookup (mapInsert (mapInsert inner.portid_indexes ctr
      inner.ports.length) (ctr + 1) (mapInsert inner.ports name ctr).length) ctr
      = some inner.ports.length
    rw [mapLookup_mapInsert_ne _ _ _ _ (by omega)]
    exact mapLookup_mapInsert_self _ ctr inner.ports.length
  · exact mapLookup_mapInsert_self _ (ctr + 1) _

/-- C10: one TriggerResync command bumps the counter of every
currently open output device by 5 at once (every entry of the counter
map is mapped, and membership is preserved under the wrapping add);
the increment wraps modulo 256 (a counter at 254 becomes 3), while
the per-callback decrement saturates at 0 (a callback finding data
with the counter at 0 leaves it at 0). -/
theorem C10_trigger_resync (cs : List (Nat × Nat)) (dev c : Nat) :
    ((dev, c) ∈ cs → (dev, (c + 5) % 256) ∈ triggerResync cs)
    ∧ (triggerResync cs).length = cs.length
    ∧ triggerResync [(0, 254)] = [(0, 3)]
    ∧ (∀ buffered input_len consumed : Nat,
        (do_write_1 0 buffered input_len consumed).counter = 0) := by
  refine ⟨fun h => ?_, ?_, by decide, fun buffered input_len consumed => ?_⟩
  · exact List.mem_map_of_mem _ h
  · simp [triggerResync]
  · unfold do_write_1
    dsimp only
    split_ifs <;> rfl

/-- C10, witness: a device with counter 7 is bumped to 12 by one
TriggerResync. -/
theorem C10_trigger_resync_witness :
    ((1, 7) ∈ [((1 : Nat), (7 : Nat))]) ∧ (1, 12) ∈ triggerResync [(1, 7)] :=
  ⟨by decide, (C10_trigger_resync [(1, 7)] 1 7).1 (by decide)⟩

end DspStuff
